import Mathlib

/- Verification of the feed aggregation and ranking engine of the eHack
   repository (src/controllers/feedController.js together with the SQL
   schema and stored procedures).  The relational state (Users, PostsData,
   Comments, Likes) is embedded as lists of rows; SQL timestamps become
   naturals; each controller operation becomes a pure function from a
   request and a database state to a response (and, for mutations, a new
   state), together with the list of storage operations it issues. -/

/-- The closed 7-value political-leaning scale, the polLean ENUM of the
schema: FL, L, SL, M, SR, R, FR. -/
inductive Pol
  | FL
  | L
  | SL
  | M
  | SR
  | R
  | FR
deriving DecidableEq, Repr

/-- The entityType ENUM of the Likes table. -/
inductive EntityType
  | POST
  | COMMENT
deriving DecidableEq, Repr

/-- The controller's entity-type check: a request's entityType string is
valid exactly when it is a member of the array with the two members POST
and COMMENT. -/
def parseEntityType : String → Option EntityType
  | "POST" => some EntityType.POST
  | "COMMENT" => some EntityType.COMMENT
  | _ => none

/-- A row of the Users table (the columns the feed engine reads). -/
structure UserRow where
  username : String
  polLean : Pol
deriving DecidableEq, Repr

/-- A row of the PostsData table. -/
structure PostRow where
  postID : Nat
  username : String
  title : String
  body : String
  sources : Option String
  datePosted : Nat
deriving DecidableEq, Repr

/-- A row of the Comments table, with the columns the controller itself
reads and writes (c.postID and c.parentCommentID, both nullable).  The
schema file's CREATE TABLE instead declares an entityType and entityID
column pair; the controller queries reference postID and parentCommentID
throughout, so the embedding follows the controller's schema. -/
structure CommentRow where
  commentID : Nat
  postID : Option Nat
  parentCommentID : Option Nat
  username : String
  body : String
  datePosted : Nat
deriving DecidableEq, Repr

/-- A row of the Likes table.  The likeID surrogate key and dateLiked
timestamp play no role in any controller read, so they are omitted. -/
structure LikeRow where
  username : String
  entityType : EntityType
  entityID : Nat
  polLean : Pol
deriving DecidableEq, Repr

/-- The relational database state. -/
structure DB where
  users : List UserRow
  posts : List PostRow
  comments : List CommentRow
  likes : List LikeRow
deriving DecidableEq, Repr

/-- The like-distribution object built by every aggregation path: a JS
object literal with exactly the seven leaning keys. -/
@[ext]
structure LikeDist where
  FL : Nat
  L : Nat
  SL : Nat
  M : Nat
  SR : Nat
  R : Nat
  FR : Nat
deriving DecidableEq, Repr

/-- The zero-initialised literal with all seven keys set to 0. -/
def zeroDist : LikeDist := ⟨0, 0, 0, 0, 0, 0, 0⟩

/-- Read one key of the distribution object. -/
def LikeDist.get (d : LikeDist) : Pol → Nat
  | Pol.FL => d.FL
  | Pol.L => d.L
  | Pol.SL => d.SL
  | Pol.M => d.M
  | Pol.SR => d.SR
  | Pol.R => d.R
  | Pol.FR => d.FR

/-- Assign one key of the distribution object, as the forEach body does. -/
def setPolKey (d : LikeDist) (p : Pol) (c : Nat) : LikeDist :=
  match p with
  | Pol.FL => ⟨c, d.L, d.SL, d.M, d.SR, d.R, d.FR⟩
  | Pol.L => ⟨d.FL, c, d.SL, d.M, d.SR, d.R, d.FR⟩
  | Pol.SL => ⟨d.FL, d.L, c, d.M, d.SR, d.R, d.FR⟩
  | Pol.M => ⟨d.FL, d.L, d.SL, c, d.SR, d.R, d.FR⟩
  | Pol.SR => ⟨d.FL, d.L, d.SL, d.M, c, d.R, d.FR⟩
  | Pol.R => ⟨d.FL, d.L, d.SL, d.M, d.SR, c, d.FR⟩
  | Pol.FR => ⟨d.FL, d.L, d.SL, d.M, d.SR, d.R, c⟩

/-- WHERE entityType = ? AND entityID = ? on the Likes table. -/
def likeMatchesEntity (et : EntityType) (id : Nat) (r : LikeRow) : Bool :=
  r.entityType == et && r.entityID == id

/-- The like rows of one entity. -/
def likeRowsFor (likes : List LikeRow) (et : EntityType) (id : Nat) : List LikeRow :=
  likes.filter (likeMatchesEntity et id)

/-- COUNT(*) of one entity's likes carrying one leaning value. -/
def countPol (likes : List LikeRow) (et : EntityType) (id : Nat) (p : Pol) : Nat :=
  (likeRowsFor likes et id).countP (fun r => r.polLean == p)

/-- The seven leaning values. -/
def allLeans : List Pol := [Pol.FL, Pol.L, Pol.SL, Pol.M, Pol.SR, Pol.R, Pol.FR]

/-- The result set of SELECT polLean, COUNT(*) ... GROUP BY polLean: one
(polLean, count) row for each leaning that occurs among the entity's
likes, each count positive.  SQL leaves the row order of a GROUP BY
unspecified; the rows are produced here in the scale's order, which is
harmless because the fill below writes each key at most once. -/
def groupByPol (likes : List LikeRow) (et : EntityType) (id : Nat) : List (Pol × Nat) :=
  allLeans.filterMap (fun p =>
    if countPol likes et id p = 0 then none
    else some (p, countPol likes et id p))

/-- The forEach loop: start from the zero-filled literal and overwrite the
key of each GROUP BY row with its count. -/
def fillDist (rows : List (Pol × Nat)) : LikeDist :=
  rows.foldl (fun d pc => setPolKey d pc.1 pc.2) zeroDist

/-- The like aggregation every controller path performs for an entity:
zero-initialise the 7-key object, then fill from the GROUP BY rows. -/
def likesDistribution (likes : List LikeRow) (et : EntityType) (id : Nat) : LikeDist :=
  fillDist (groupByPol likes et id)

/- ------------------------------------------------------------------ -/
/- Ranking engine: ORDER BY is embedded as a deterministic stable sort
   with a Bool comparison; SQL does not fix the order of rows that tie
   on every listed key, so the embedding fixes one canonical order. -/

/-- Insert an element into a list in front of the first element it
compares at-or-before. -/
def insertOrd (le : α → α → Bool) (a : α) : List α → List α
  | [] => [a]
  | b :: bs => if le a b then a :: b :: bs else b :: insertOrd le a bs

/-- Deterministic comparison sort used to embed ORDER BY. -/
def sortedBy (le : α → α → Bool) : List α → List α
  | [] => []
  | a :: as => insertOrd le a (sortedBy le as)

/-- COUNT(*) FROM Likes WHERE entityType = POST AND entityID = ?. -/
def countPostLikes (likes : List LikeRow) (pid : Nat) : Nat :=
  likes.countP (fun r => r.entityType == EntityType.POST && r.entityID == pid)

/-- COUNT(*) FROM Likes WHERE entityType = POST AND entityID = ? AND
polLean IN set. -/
def countPostLikesAmong (likes : List LikeRow) (pid : Nat) (s : List Pol) : Nat :=
  likes.countP (fun r =>
    r.entityType == EntityType.POST && r.entityID == pid && s.contains r.polLean)

/-- COUNT(*) FROM Likes WHERE entityType = COMMENT AND entityID = ?. -/
def countCommentLikes (likes : List LikeRow) (cid : Nat) : Nat :=
  likes.countP (fun r => r.entityType == EntityType.COMMENT && r.entityID == cid)

/-- As countPostLikesAmong, for a comment. -/
def countCommentLikesAmong (likes : List LikeRow) (cid : Nat) (s : List Pol) : Nat :=
  likes.countP (fun r =>
    r.entityType == EntityType.COMMENT && r.entityID == cid && s.contains r.polLean)

/-- The IN ('FR', 'R', 'SR') set of the right-leaning subqueries. -/
def rightSet : List Pol := [Pol.FR, Pol.R, Pol.SR]

/-- The IN ('FL', 'L', 'SL') set of the left-leaning subqueries. -/
def leftSet : List Pol := [Pol.FL, Pol.L, Pol.SL]

/-- ORDER BY key ASC, datePosted DESC. -/
def keyAscRecent (key : α → Nat) (date : α → Nat) (a b : α) : Bool :=
  decide (key a < key b) || (key a == key b && decide (date b ≤ date a))

/-- ORDER BY key DESC, datePosted DESC. -/
def keyDescRecent (key : α → Nat) (date : α → Nat) (a b : α) : Bool :=
  decide (key b < key a) || (key a == key b && decide (date b ≤ date a))

/-- The switch on sortBy of getPosts: six recognised policies, with the
recent case shared with the default case. -/
def sortPosts (db : DB) (sortBy : String) (ps : List PostRow) : List PostRow :=
  if sortBy = "balanced" then
    sortedBy (keyAscRecent (fun p =>
      ((countPostLikesAmong db.likes p.postID rightSet : Int) -
        (countPostLikesAmong db.likes p.postID leftSet : Int)).natAbs)
      (fun p => p.datePosted)) ps
  else if sortBy = "controversial" then
    sortedBy (keyDescRecent (fun p => countPostLikes db.likes p.postID)
      (fun p => p.datePosted)) ps
  else if sortBy = "right" then
    sortedBy (keyDescRecent (fun p => countPostLikesAmong db.likes p.postID rightSet)
      (fun p => p.datePosted)) ps
  else if sortBy = "left" then
    sortedBy (keyDescRecent (fun p => countPostLikesAmong db.likes p.postID leftSet)
      (fun p => p.datePosted)) ps
  else if sortBy = "moderate" then
    sortedBy (keyDescRecent (fun p => countPostLikesAmong db.likes p.postID [Pol.M])
      (fun p => p.datePosted)) ps
  else
    sortedBy (fun a b => decide (b.datePosted ≤ a.datePosted)) ps

/-- Object.values iterates the seven keys in insertion order and the
reduce adds them starting from 0. -/
def distValuesSum (d : LikeDist) : Nat :=
  [d.FL, d.L, d.SL, d.M, d.SR, d.R, d.FR].foldl (fun s c => s + c) 0

/-- A post row of the getPosts response after the per-post enrichment
loop attached the distribution and the derived scalars. -/
structure EnrichedPost where
  post : PostRow
  commentCount : Nat
  likes : LikeDist
  totalLikes : Nat
  rightLikes : Nat
  leftLikes : Nat
  moderateLikes : Nat
  polarizationScore : Nat
deriving DecidableEq, Repr

/-- The per-post body of the getPosts loop: aggregate the likes, then
compute totalLikes, rightLikes, leftLikes, moderateLikes and the
polarization score Math.abs(rightLikes - leftLikes). -/
def enrichPost (db : DB) (p : PostRow) : EnrichedPost :=
  ⟨p,
    db.comments.countP (fun c => c.postID == some p.postID),
    likesDistribution db.likes EntityType.POST p.postID,
    distValuesSum (likesDistribution db.likes EntityType.POST p.postID),
    (likesDistribution db.likes EntityType.POST p.postID).FR +
      (likesDistribution db.likes EntityType.POST p.postID).R +
      (likesDistribution db.likes EntityType.POST p.postID).SR,
    (likesDistribution db.likes EntityType.POST p.postID).FL +
      (likesDistribution db.likes EntityType.POST p.postID).L +
      (likesDistribution db.likes EntityType.POST p.postID).SL,
    (likesDistribution db.likes EntityType.POST p.postID).M,
    ((((likesDistribution db.likes EntityType.POST p.postID).FR +
        (likesDistribution db.likes EntityType.POST p.postID).R +
        (likesDistribution db.likes EntityType.POST p.postID).SR : Nat) : Int) -
      (((likesDistribution db.likes EntityType.POST p.postID).FL +
        (likesDistribution db.likes EntityType.POST p.postID).L +
        (likesDistribution db.likes EntityType.POST p.postID).SL : Nat) : Int)).natAbs⟩

/-- The getPosts response object. -/
structure PostsResponse where
  currentPage : Nat
  totalPages : Nat
  totalPosts : Nat
  postsPerPage : Nat
  sortBy : String
  posts : List EnrichedPost
deriving DecidableEq, Repr

/-- Math.ceil(a / b) on naturals, for b at least 1. -/
def ceilDivNat (a b : Nat) : Nat := (a + b - 1) / b

/-- GET /feed/posts: sort the full PostsData scope, window it with
LIMIT limit OFFSET (page - 1) * limit, enrich each post of the window,
and report the unfiltered COUNT(*) with totalPages = ceil(total/limit). -/
def getPosts (db : DB) (page limit : Nat) (sortBy : String) : PostsResponse :=
  ⟨page,
    ceilDivNat db.posts.length limit,
    db.posts.length,
    limit,
    sortBy,
    (((sortPosts db sortBy db.posts).drop ((page - 1) * limit)).take limit).map
      (enrichPost db)⟩

/- ------------------------------------------------------------------ -/
/- Comment threading view and like mutation service.  Each operation
   also records the trace of storage operations it issues, in order. -/

/-- A storage round-trip issued by a controller operation. -/
inductive DbOp
  | queryUsers (username : String)
  | queryPostExists (id : Nat)
  | queryCommentExists (id : Nat)
  | selectCommentsPage (postID : Nat) (parentCommentID : Option Nat)
  | countComments (postID : Nat) (parentCommentID : Option Nat)
  | selectLikesGroup (et : EntityType) (id : Nat)
  | callInsertLike (username : String) (et : EntityType) (id : Nat) (p : Pol)
  | callInsertComment (username : String)
  | deleteLikes (username : String) (et : EntityType) (id : Nat)
deriving DecidableEq, Repr

/-- The domain errors of the feed controller (its non-200 responses). -/
inductive FeedError
  | UserNotFound
  | InvalidEntityType
  | EntityNotFound (et : EntityType)
  | AlreadyLiked
  | LikeNotFound
  | PostNotFound
  | MissingBody
  | MissingFields
deriving DecidableEq, Repr

/-- A comment row of the getComments response after enrichment with
replyCount, the like distribution, and totalLikes. -/
structure EnrichedComment where
  comment : CommentRow
  replyCount : Nat
  likes : LikeDist
  totalLikes : Nat
deriving DecidableEq, Repr

/-- The getComments response object. -/
structure CommentsResponse where
  currentPage : Nat
  totalPages : Nat
  totalComments : Nat
  commentsPerPage : Nat
  sortBy : String
  parentCommentID : Option Nat
  comments : List EnrichedComment
deriving DecidableEq, Repr

/-- The same response with the echoed sortBy string replaced. -/
def CommentsResponse.withSort (r : CommentsResponse) (s : String) : CommentsResponse :=
  ⟨r.currentPage, r.totalPages, r.totalComments, r.commentsPerPage, s,
    r.parentCommentID, r.comments⟩

/-- The same posts response with the echoed sortBy string replaced. -/
def PostsResponse.withSort (r : PostsResponse) (s : String) : PostsResponse :=
  ⟨r.currentPage, r.totalPages, r.totalPosts, r.postsPerPage, s, r.posts⟩

/-- The whereClause of getComments: comments of the post, restricted to
top-level rows (parentCommentID IS NULL) or to the replies of one
parent. -/
def commentScope (db : DB) (postID : Nat) (parentID : Option Nat) : List CommentRow :=
  match parentID with
  | none => db.comments.filter
      (fun c => c.postID == some postID && c.parentCommentID == (none : Option Nat))
  | some pid => db.comments.filter
      (fun c => c.postID == some postID && c.parentCommentID == some pid)

/-- The switch on sortBy of getComments: four recognised policies, the
recent case shared with the default case. -/
def sortComments (db : DB) (sortBy : String) (cs : List CommentRow) : List CommentRow :=
  if sortBy = "controversial" then
    sortedBy (keyDescRecent (fun c => countCommentLikes db.likes c.commentID)
      (fun c => c.datePosted)) cs
  else if sortBy = "balanced" then
    sortedBy (keyAscRecent (fun c =>
      ((countCommentLikesAmong db.likes c.commentID rightSet : Int) -
        (countCommentLikesAmong db.likes c.commentID leftSet : Int)).natAbs)
      (fun c => c.datePosted)) cs
  else if sortBy = "oldest" then
    sortedBy (fun a b => decide (a.datePosted ≤ b.datePosted)) cs
  else
    sortedBy (fun a b => decide (b.datePosted ≤ a.datePosted)) cs

/-- The per-comment body of the getComments loop: replyCount is the
count of direct children, plus the aggregated distribution and its
total. -/
def enrichComment (db : DB) (c : CommentRow) : EnrichedComment :=
  ⟨c,
    db.comments.countP (fun r => r.parentCommentID == some c.commentID),
    likesDistribution db.likes EntityType.COMMENT c.commentID,
    distValuesSum (likesDistribution db.likes EntityType.COMMENT c.commentID)⟩

/-- Result of a listing operation: the response or an error, with the
trace of storage operations issued. -/
structure ListResult where
  result : Except FeedError CommentsResponse
  trace : List DbOp
deriving Repr

/-- GET /feed/posts/comments: the post-existence query runs first and a
missing post returns PostNotFound with no further storage work;
otherwise the scoped comments are sorted, windowed, enriched one by one,
and the unfiltered scope COUNT(*) is read last. -/
def getComments (db : DB) (postID : Nat) (page limit : Nat) (sortBy : String)
    (parentID : Option Nat) : ListResult :=
  if db.posts.any (fun p => p.postID == postID) then
    ⟨Except.ok
      ⟨page,
        ceilDivNat (commentScope db postID parentID).length limit,
        (commentScope db postID parentID).length,
        limit,
        sortBy,
        parentID,
        (((sortComments db sortBy (commentScope db postID parentID)).drop
            ((page - 1) * limit)).take limit).map (enrichComment db)⟩,
      [DbOp.queryPostExists postID, DbOp.selectCommentsPage postID parentID] ++
        ((((sortComments db sortBy (commentScope db postID parentID)).drop
            ((page - 1) * limit)).take limit).map
          (fun c => DbOp.selectLikesGroup EntityType.COMMENT c.commentID)) ++
        [DbOp.countComments postID parentID]⟩
  else
    ⟨Except.error FeedError.PostNotFound, [DbOp.queryPostExists postID]⟩

/-- A comment of the single-post view: the comment row with its 7-key
like distribution attached. -/
structure PostViewComment where
  comment : CommentRow
  likes : LikeDist
deriving DecidableEq, Repr

/-- The single-post response of getPostById: the post row, its 7-key
like distribution, and all the post's comments ordered by datePosted
ascending, each with its own distribution. -/
structure PostView where
  post : PostRow
  likes : LikeDist
  comments : List PostViewComment
deriving DecidableEq, Repr

/-- GET /feed/posts/:id: look the post up (the first matching row, 404
on none), aggregate its like distribution, select the post's comments
ordered by datePosted ascending, and aggregate each comment's
distribution. -/
def getPostById (db : DB) (postID : Nat) : Except FeedError PostView :=
  match db.posts.find? (fun p => p.postID == postID) with
  | none => Except.error FeedError.PostNotFound
  | some p =>
      Except.ok
        ⟨p,
          likesDistribution db.likes EntityType.POST postID,
          (sortedBy (fun a b => decide (a.datePosted ≤ b.datePosted))
              (db.comments.filter (fun c => c.postID == some postID))).map
            (fun c => ⟨c, likesDistribution db.likes EntityType.COMMENT c.commentID⟩)⟩

/-- The entity-existence query of addLike: posts are looked up in
PostsData, comments in Comments. -/
def entityExistsOp (et : EntityType) (id : Nat) : DbOp :=
  match et with
  | EntityType.POST => DbOp.queryPostExists id
  | EntityType.COMMENT => DbOp.queryCommentExists id

/-- SELECT polLean FROM Users WHERE username = ? (first row, if any). -/
def findUser (users : List UserRow) (username : String) : Option UserRow :=
  users.find? (fun u => u.username == username)

/-- The uniqueness predicate of the Likes table: same user, same entity
type, same entity id. -/
def likeMatchesTriple (username : String) (et : EntityType) (id : Nat) (r : LikeRow) : Bool :=
  r.username == username && r.entityType == et && r.entityID == id

/-- The existence check of addLike: posts are looked up in PostsData,
comments in Comments. -/
def entityExists (db : DB) (et : EntityType) (id : Nat) : Bool :=
  match et with
  | EntityType.POST => db.posts.any (fun p => p.postID == id)
  | EntityType.COMMENT => db.comments.any (fun c => c.commentID == id)

/-- Result of a like mutation: the refreshed distribution or an error,
the resulting database state, and the trace of storage operations. -/
structure MutationResult where
  result : Except FeedError LikeDist
  db : DB
  trace : List DbOp
deriving Repr

/-- POST /feed/likes.  The controller resolves the user's leaning with a
Users query first, then validates the entityType string, then checks the
entity exists, then calls the insertLike procedure, whose uniqueness
check raises the duplicate error; on success the refreshed distribution
is re-read from the store. -/
def addLike (db : DB) (username ets : String) (entityID : Nat) : MutationResult :=
  match findUser db.users username with
  | none => ⟨Except.error FeedError.UserNotFound, db, [DbOp.queryUsers username]⟩
  | some u =>
    match parseEntityType ets with
    | none => ⟨Except.error FeedError.InvalidEntityType, db, [DbOp.queryUsers username]⟩
    | some et =>
      if entityExists db et entityID then
        if db.likes.any (likeMatchesTriple username et entityID) then
          ⟨Except.error FeedError.AlreadyLiked, db,
            [DbOp.queryUsers username,
              entityExistsOp et entityID,
              DbOp.callInsertLike username et entityID u.polLean]⟩
        else
          ⟨Except.ok (likesDistribution (db.likes ++ [⟨username, et, entityID, u.polLean⟩])
              et entityID),
            ⟨db.users, db.posts, db.comments,
              db.likes ++ [⟨username, et, entityID, u.polLean⟩]⟩,
            [DbOp.queryUsers username,
              entityExistsOp et entityID,
              DbOp.callInsertLike username et entityID u.polLean,
              DbOp.selectLikesGroup et entityID]⟩
      else
        ⟨Except.error (FeedError.EntityNotFound et), db,
          [DbOp.queryUsers username, entityExistsOp et entityID]⟩

/-- DELETE /feed/likes.  The entityType string is validated before any
storage call; the DELETE then removes exactly the rows matching the
(username, entityType, entityID) triple; zero affected rows yields
LikeNotFound, otherwise the refreshed distribution is re-read. -/
def removeLike (db : DB) (username ets : String) (entityID : Nat) : MutationResult :=
  match parseEntityType ets with
  | none => ⟨Except.error FeedError.InvalidEntityType, db, []⟩
  | some et =>
    if db.likes.countP (likeMatchesTriple username et entityID) = 0 then
      ⟨Except.error FeedError.LikeNotFound,
        ⟨db.users, db.posts, db.comments,
          db.likes.filter (fun r => !likeMatchesTriple username et entityID r)⟩,
        [DbOp.deleteLikes username et entityID]⟩
    else
      ⟨Except.ok (likesDistribution
          (db.likes.filter (fun r => !likeMatchesTriple username et entityID r))
          et entityID),
        ⟨db.users, db.posts, db.comments,
          db.likes.filter (fun r => !likeMatchesTriple username et entityID r)⟩,
        [DbOp.deleteLikes username et entityID, DbOp.selectLikesGroup et entityID]⟩

/-- JS truthiness of an optional numeric request field: absent and 0 are
both falsy. -/
def truthyOpt : Option Nat → Bool
  | none => false
  | some n => !(n == 0)

/-- AUTO_INCREMENT followed by LAST_INSERT_ID: one more than the largest
allocated commentID. -/
def nextCommentID (db : DB) : Nat :=
  db.comments.foldl (fun m c => max m c.commentID) 0 + 1

/-- Result of addComment: the new comment id or an error, the resulting
state, and the trace. -/
structure CommentResult where
  result : Except FeedError Nat
  db : DB
  trace : List DbOp
deriving Repr

/-- POST /feed/comments.  The controller requires a truthy body, then a
truthy postID or parentCommentID, and inserts a row carrying postID and
parentCommentID as given (each replaced by NULL when falsy).  The
insertComment procedure of the schema file instead takes an entityType
and entityID pair and does not match the controller's call; the row
inserted here follows the controller's own column usage. -/
def addComment (db : DB) (username body : String) (postID parentCommentID : Option Nat)
    (now : Nat) : CommentResult :=
  if body = "" then
    ⟨Except.error FeedError.MissingBody, db, []⟩
  else if !truthyOpt postID && !truthyOpt parentCommentID then
    ⟨Except.error FeedError.MissingFields, db, []⟩
  else
    ⟨Except.ok (nextCommentID db),
      ⟨db.users, db.posts,
        db.comments ++ [⟨nextCommentID db,
          if truthyOpt postID then postID else none,
          if truthyOpt parentCommentID then parentCommentID else none,
          username, body, now⟩],
        db.likes⟩,
      [DbOp.callInsertComment username]⟩

/-- The recognised post sort policies: the case labels of the getPosts
switch (recent is both a case and the default). -/
def postPolicies : List String :=
  ["balanced", "controversial", "right", "left", "moderate", "recent"]

/-- The recognised comment sort policies: the case labels of the
getComments switch. -/
def commentPolicies : List String :=
  ["controversial", "balanced", "oldest", "recent"]

/-- The concatenation, in order, of the post pages 1 through k of the
listing. -/
def allPostPages (db : DB) (limit : Nat) (sortBy : String) (k : Nat) : List EnrichedPost :=
  ((List.range k).map (fun i => (getPosts db (i + 1) limit sortBy).posts)).flatten

/- ------------------------------------------------------------------ -/
/- Concrete states used by witnesses and counterexamples. -/

/-- A user of leaning R. -/
def wUserAlice : UserRow := ⟨"alice", Pol.R⟩

/-- A user of leaning L. -/
def wUserBob : UserRow := ⟨"bob", Pol.L⟩

/-- Three posts with distinct ids and dates. -/
def wPost1 : PostRow := ⟨1, "alice", "t1", "b1", none, 10⟩

def wPost2 : PostRow := ⟨2, "bob", "t2", "b2", none, 20⟩

def wPost3 : PostRow := ⟨3, "alice", "t3", "b3", none, 30⟩

/-- A top-level comment of post 1. -/
def wComment1 : CommentRow := ⟨1, some 1, none, "bob", "c1", 15⟩

/-- A like of bob on comment 1 with his leaning snapshot. -/
def wLike1 : LikeRow := ⟨"bob", EntityType.COMMENT, 1, Pol.L⟩

/-- The empty database. -/
def dbEmpty : DB := ⟨[], [], [], []⟩

/-- A database with one user and one post, no likes. -/
def dbOnePost : DB := ⟨[wUserAlice], [wPost1], [], []⟩

/-- A database with two users, three posts, one comment and one like. -/
def dbSmall : DB := ⟨[wUserAlice, wUserBob], [wPost1, wPost2, wPost3], [wComment1], [wLike1]⟩

/- ------------------------------------------------------------------ -/
/- Theorems. -/

theorem zeroDist_get (p : Pol) : zeroDist.get p = 0 := by
  cases p <;> rfl

theorem get_setPolKey (d : LikeDist) (q p : Pol) (c : Nat) :
    (setPolKey d q c).get p = if p = q then c else d.get p := by
  cases p <;> cases q <;> simp [setPolKey, LikeDist.get]

theorem get_foldl_fill (f : Pol → Nat) (L : List Pol) (d : LikeDist) (p : Pol) :
    ((L.filterMap (fun q => if f q = 0 then none else some (q, f q))).foldl
      (fun d pc => setPolKey d pc.1 pc.2) d).get p =
    if p ∈ L ∧ f p ≠ 0 then f p else d.get p := by
  induction L generalizing d with
  | nil => simp
  | cons q rest ih =>
    by_cases hq : f q = 0
    · have hcons : (q :: rest).filterMap (fun r => if f r = 0 then none else some (r, f r)) =
          rest.filterMap (fun r => if f r = 0 then none else some (r, f r)) := by
        simp [List.filterMap_cons, hq]
      rw [hcons, ih]
      by_cases hpq : p = q
      · subst hpq
        simp [hq]
      · simp [hpq]
    · have hcons : (q :: rest).filterMap (fun r => if f r = 0 then none else some (r, f r)) =
          (q, f q) :: rest.filterMap (fun r => if f r = 0 then none else some (r, f r)) := by
        simp [List.filterMap_cons, hq]
      rw [hcons, List.foldl_cons, ih, get_setPolKey]
      by_cases hpq : p = q
      · subst hpq
        by_cases hpr : p ∈ rest <;> simp [hpr, hq]
      · by_cases hpr : p ∈ rest <;> by_cases hfp : f p = 0 <;> simp [hpq, hpr, hfp]

theorem likesDistribution_get (likes : List LikeRow) (et : EntityType) (id : Nat) (p : Pol) :
    (likesDistribution likes et id).get p = countPol likes et id p := by
  unfold likesDistribution fillDist groupByPol
  rw [get_foldl_fill]
  have hp : p ∈ allLeans := by cases p <;> simp [allLeans]
  by_cases h : countPol likes et id p = 0
  · simp [hp, h, zeroDist_get]
  · simp [hp, h]

theorem insertOrd_perm (le : α → α → Bool) (a : α) (l : List α) :
    (insertOrd le a l).Perm (a :: l) := by
  induction l with
  | nil => exact List.Perm.refl _
  | cons b bs ih =>
    by_cases h : le a b = true
    · rw [insertOrd, if_pos h]
    · rw [insertOrd, if_neg h]
      exact (ih.cons b).trans (List.Perm.swap a b bs)

theorem sortedBy_perm (le : α → α → Bool) (l : List α) :
    (sortedBy le l).Perm l := by
  induction l with
  | nil => exact List.Perm.refl _
  | cons a as ih =>
    unfold sortedBy
    exact (insertOrd_perm le a (sortedBy le as)).trans (ih.cons a)

theorem sortedBy_length (le : α → α → Bool) (l : List α) :
    (sortedBy le l).length = l.length :=
  (sortedBy_perm le l).length_eq

theorem distValuesSum_eq (d : LikeDist) :
    distValuesSum d = d.FL + d.L + d.SL + d.M + d.SR + d.R + d.FR := by
  simp only [distValuesSum, List.foldl_cons, List.foldl_nil]
  omega

theorem distPartition (d : LikeDist) :
    d.FR + d.R + d.SR + (d.FL + d.L + d.SL) + d.M = distValuesSum d := by
  rw [distValuesSum_eq]
  omega

/-- C1: every like distribution computed by an aggregation path is the
7-key object whose key for each leaning counts the entity's like rows of
that leaning, so every key is a non-negative integer, every category
absent from storage is reported as 0, and an entity with zero likes
yields the all-zero object rather than an error; the post listing, the
like-add, the like-remove, the comment listing and the single-post
fetch (for the post and for each of its comments) all return exactly
this aggregation. -/
theorem c1_aggregate_seven_keys_zero_filled :
    (∀ (likes : List LikeRow) (et : EntityType) (id : Nat) (p : Pol),
        (likesDistribution likes et id).get p = countPol likes et id p) ∧
    (∀ (likes : List LikeRow) (et : EntityType) (id : Nat),
        likeRowsFor likes et id = [] → likesDistribution likes et id = zeroDist) ∧
    (∀ (db : DB) (page limit : Nat) (sortBy : String) (ep : EnrichedPost),
        ep ∈ (getPosts db page limit sortBy).posts →
        ep.likes = likesDistribution db.likes EntityType.POST ep.post.postID) ∧
    (∀ (db : DB) (username ets : String) (id : Nat) (d : LikeDist),
        (addLike db username ets id).result = Except.ok d →
        ∃ et, parseEntityType ets = some et ∧
          d = likesDistribution (addLike db username ets id).db.likes et id) ∧
    (∀ (db : DB) (username ets : String) (id : Nat) (d : LikeDist),
        (removeLike db username ets id).result = Except.ok d →
        ∃ et, parseEntityType ets = some et ∧
          d = likesDistribution (removeLike db username ets id).db.likes et id) ∧
    (∀ (db : DB) (postID page limit : Nat) (sortBy : String) (parentID : Option Nat)
        (resp : CommentsResponse) (ec : EnrichedComment),
        (getComments db postID page limit sortBy parentID).result = Except.ok resp →
        ec ∈ resp.comments →
        ec.likes = likesDistribution db.likes EntityType.COMMENT ec.comment.commentID) ∧
    (∀ (db : DB) (postID : Nat) (pv : PostView),
        getPostById db postID = Except.ok pv →
        pv.likes = likesDistribution db.likes EntityType.POST pv.post.postID ∧
        ∀ pc ∈ pv.comments,
          pc.likes = likesDistribution db.likes EntityType.COMMENT pc.comment.commentID) := by
  refine ⟨likesDistribution_get, ?_, ?_, ?_, ?_, ?_, ?_⟩
  · intro likes et id h
    have hget : ∀ p, (likesDistribution likes et id).get p = 0 := by
      intro p
      rw [likesDistribution_get]
      simp [countPol, h]
    ext
    · exact hget Pol.FL
    · exact hget Pol.L
    · exact hget Pol.SL
    · exact hget Pol.M
    · exact hget Pol.SR
    · exact hget Pol.R
    · exact hget Pol.FR
  · intro db page limit sortBy ep hmem
    have hmem2 : ep ∈ (((sortPosts db sortBy db.posts).drop ((page - 1) * limit)).take
        limit).map (enrichPost db) := hmem
    rcases List.mem_map.mp hmem2 with ⟨p, _, rfl⟩
    rfl
  · intro db username ets id d h
    cases hfu : findUser db.users username with
    | none => simp [addLike, hfu] at h
    | some u =>
      cases hpe : parseEntityType ets with
      | none => simp [addLike, hfu, hpe] at h
      | some et =>
        cases hex : entityExists db et id with
        | false => simp [addLike, hfu, hpe, hex] at h
        | true =>
          cases hdup : db.likes.any (likeMatchesTriple username et id) with
          | true => simp [addLike, hfu, hpe, hex, hdup] at h
          | false =>
            refine ⟨et, rfl, ?_⟩
            have hred : addLike db username ets id =
                ⟨Except.ok (likesDistribution
                    (db.likes ++ [⟨username, et, id, u.polLean⟩]) et id),
                  ⟨db.users, db.posts, db.comments,
                    db.likes ++ [⟨username, et, id, u.polLean⟩]⟩,
                  [DbOp.queryUsers username,
                    entityExistsOp et id,
                    DbOp.callInsertLike username et id u.polLean,
                    DbOp.selectLikesGroup et id]⟩ := by
              simp [addLike, hfu, hpe, hex, hdup]
            rw [hred] at h
            rw [hred]
            injection h with h2
            exact h2.symm
  · intro db username ets id d h
    cases hpe : parseEntityType ets with
    | none => simp [removeLike, hpe] at h
    | some et =>
      cases hcnt : db.likes.countP (likeMatchesTriple username et id) with
      | zero => simp [removeLike, hpe, hcnt] at h
      | succ n =>
        refine ⟨et, rfl, ?_⟩
        have hred : removeLike db username ets id =
            ⟨Except.ok (likesDistribution
                (db.likes.filter (fun r => !likeMatchesTriple username et id r)) et id),
              ⟨db.users, db.posts, db.comments,
                db.likes.filter (fun r => !likeMatchesTriple username et id r)⟩,
              [DbOp.deleteLikes username et id, DbOp.selectLikesGroup et id]⟩ := by
          simp [removeLike, hpe, hcnt]
        rw [hred] at h
        rw [hred]
        injection h with h2
        exact h2.symm
  · intro db postID page limit sortBy parentID resp ec h hmem
    cases hpost : db.posts.any (fun p => p.postID == postID) with
    | false => simp [getComments, hpost] at h
    | true =>
      have hresp : resp =
          ⟨page,
            ceilDivNat (commentScope db postID parentID).length limit,
            (commentScope db postID parentID).length,
            limit,
            sortBy,
            parentID,
            (((sortComments db sortBy (commentScope db postID parentID)).drop
                ((page - 1) * limit)).take limit).map (enrichComment db)⟩ := by
        have h2 : (getComments db postID page limit sortBy parentID).result =
            Except.ok ⟨page,
              ceilDivNat (commentScope db postID parentID).length limit,
              (commentScope db postID parentID).length,
              limit,
              sortBy,
              parentID,
              (((sortComments db sortBy (commentScope db postID parentID)).drop
                  ((page - 1) * limit)).take limit).map (enrichComment db)⟩ := by
          simp [getComments, hpost]
        rw [h2] at h
        injection h with h3
        exact h3.symm
      subst hresp
      rcases List.mem_map.mp hmem with ⟨c, _, rfl⟩
      rfl
  · intro db postID pv h
    cases hfind : db.posts.find? (fun p => p.postID == postID) with
    | none => simp [getPostById, hfind] at h
    | some p =>
      have hp : p.postID = postID := by
        have := List.find?_some hfind
        simpa using this
      have hred : getPostById db postID = Except.ok
          ⟨p,
            likesDistribution db.likes EntityType.POST postID,
            (sortedBy (fun a b => decide (a.datePosted ≤ b.datePosted))
                (db.comments.filter (fun c => c.postID == some postID))).map
              (fun c => ⟨c, likesDistribution db.likes EntityType.COMMENT c.commentID⟩)⟩ := by
        simp [getPostById, hfind]
      rw [hred] at h
      injection h with h2
      subst h2
      constructor
      · show likesDistribution db.likes EntityType.POST postID =
          likesDistribution db.likes EntityType.POST p.postID
        rw [hp]
      · intro pc hmem
        rcases List.mem_map.mp hmem with ⟨c, _, rfl⟩
        rfl

/-- C1 witness: an entity with zero likes gets the all-zero 7-key
distribution. -/
theorem c1_witness :
    likeRowsFor [] EntityType.POST 1 = [] ∧
    likesDistribution [] EntityType.POST 1 = zeroDist :=
  ⟨rfl, c1_aggregate_seven_keys_zero_filled.2.1 [] EntityType.POST 1 rfl⟩

/-- C2: every post returned by the post listing carries the derived
scalars rightLikes = FR+R+SR, leftLikes = FL+L+SL, moderateLikes = M,
totalLikes = sum of the seven keys, polarizationScore equal to the
absolute difference of rightLikes and leftLikes, and the three partial
sums partition totalLikes. -/
theorem c2_derived_scalars (db : DB) (page limit : Nat) (sortBy : String)
    (ep : EnrichedPost) (hmem : ep ∈ (getPosts db page limit sortBy).posts) :
    ep.rightLikes = ep.likes.FR + ep.likes.R + ep.likes.SR ∧
    ep.leftLikes = ep.likes.FL + ep.likes.L + ep.likes.SL ∧
    ep.moderateLikes = ep.likes.M ∧
    ep.totalLikes = ep.likes.FL + ep.likes.L + ep.likes.SL + ep.likes.M +
      ep.likes.SR + ep.likes.R + ep.likes.FR ∧
    ep.polarizationScore = ((ep.rightLikes : Int) - (ep.leftLikes : Int)).natAbs ∧
    ep.rightLikes + ep.leftLikes + ep.moderateLikes = ep.totalLikes := by
  have hmem2 : ep ∈ (((sortPosts db sortBy db.posts).drop ((page - 1) * limit)).take
      limit).map (enrichPost db) := hmem
  rcases List.mem_map.mp hmem2 with ⟨p, _, rfl⟩
  exact ⟨rfl, rfl, rfl,
    distValuesSum_eq (likesDistribution db.likes EntityType.POST p.postID), rfl,
    distPartition (likesDistribution db.likes EntityType.POST p.postID)⟩

/-- C2 witness: the derived scalars hold for the single post of a
concrete listing. -/
theorem c2_witness :
    enrichPost dbOnePost wPost1 ∈ (getPosts dbOnePost 1 10 "recent").posts ∧
    ((enrichPost dbOnePost wPost1).rightLikes =
        (enrichPost dbOnePost wPost1).likes.FR + (enrichPost dbOnePost wPost1).likes.R +
          (enrichPost dbOnePost wPost1).likes.SR ∧
      (enrichPost dbOnePost wPost1).leftLikes =
        (enrichPost dbOnePost wPost1).likes.FL + (enrichPost dbOnePost wPost1).likes.L +
          (enrichPost dbOnePost wPost1).likes.SL ∧
      (enrichPost dbOnePost wPost1).moderateLikes = (enrichPost dbOnePost wPost1).likes.M ∧
      (enrichPost dbOnePost wPost1).totalLikes =
        (enrichPost dbOnePost wPost1).likes.FL + (enrichPost dbOnePost wPost1).likes.L +
          (enrichPost dbOnePost wPost1).likes.SL + (enrichPost dbOnePost wPost1).likes.M +
          (enrichPost dbOnePost wPost1).likes.SR + (enrichPost dbOnePost wPost1).likes.R +
          (enrichPost dbOnePost wPost1).likes.FR ∧
      (enrichPost dbOnePost wPost1).polarizationScore =
        (((enrichPost dbOnePost wPost1).rightLikes : Int) -
          ((enrichPost dbOnePost wPost1).leftLikes : Int)).natAbs ∧
      (enrichPost dbOnePost wPost1).rightLikes + (enrichPost dbOnePost wPost1).leftLikes +
          (enrichPost dbOnePost wPost1).moderateLikes =
        (enrichPost dbOnePost wPost1).totalLikes) :=
  ⟨by decide,
    c2_derived_scalars dbOnePost 1 10 "recent" (enrichPost dbOnePost wPost1) (by decide)⟩

/-- C3 counterexample: with the unrecognized policy string xyz the post
listing's full response is not exactly the response for recent, because
the echoed sortBy field keeps the requested string. -/
theorem c3_counterexample :
    (getPosts dbEmpty 1 10 "xyz" = getPosts dbEmpty 1 10 "recent") = False ∧
    (getPosts dbEmpty 1 10 "xyz").sortBy = "xyz" ∧
    (getPosts dbEmpty 1 10 "recent").sortBy = "recent" := by
  refine ⟨?_, rfl, rfl⟩
  decide

/-- C3 (amended): a post or comment listing invoked with an unrecognized
sort-policy string returns the same ordered result and the same
pagination metadata and storage trace as with the recent policy; the
only difference in the response is the echoed sortBy string, which
keeps the requested value. -/
theorem c3_amended_unrecognized_policy_fallback (db : DB) (page limit : Nat)
    (sortBy : String) (postID : Nat) (parentID : Option Nat)
    (hpost : sortBy ∉ postPolicies) (hcomment : sortBy ∉ commentPolicies) :
    getPosts db page limit sortBy = (getPosts db page limit "recent").withSort sortBy ∧
    (getComments db postID page limit sortBy parentID).result =
      Except.map (fun r => r.withSort sortBy)
        (getComments db postID page limit "recent" parentID).result ∧
    (getComments db postID page limit sortBy parentID).trace =
      (getComments db postID page limit "recent" parentID).trace := by
  simp only [postPolicies, commentPolicies, List.mem_cons, List.not_mem_nil, or_false,
    not_or] at hpost hcomment
  obtain ⟨h1, h2, h3, h4, h5, h6⟩ := hpost
  obtain ⟨g1, g2, g3, g4⟩ := hcomment
  refine ⟨?_, ?_, ?_⟩
  · simp [getPosts, sortPosts, PostsResponse.withSort, h1, h2, h3, h4, h5]
  · cases hp : db.posts.any (fun p => p.postID == postID) with
    | false => simp [getComments, hp, Except.map]
    | true =>
      simp [getComments, sortComments, CommentsResponse.withSort, Except.map, hp, g1, g2, g3]
  · cases hp : db.posts.any (fun p => p.postID == postID) with
    | false => simp [getComments, hp]
    | true => simp [getComments, sortComments, hp, g1, g2, g3]

/-- C3 witness: the fallback equivalence evaluated at the policy string
xyz on a concrete state. -/
theorem c3_witness :
    "xyz" ∉ postPolicies ∧ "xyz" ∉ commentPolicies ∧
    (getPosts dbSmall 1 10 "xyz" = (getPosts dbSmall 1 10 "recent").withSort "xyz" ∧
      (getComments dbSmall 1 1 10 "xyz" none).result =
        Except.map (fun r => r.withSort "xyz")
          (getComments dbSmall 1 1 10 "recent" none).result ∧
      (getComments dbSmall 1 1 10 "xyz" none).trace =
        (getComments dbSmall 1 1 10 "recent" none).trace) :=
  ⟨by decide, by decide,
    c3_amended_unrecognized_policy_fallback dbSmall 1 10 "xyz" 1 none
      (by decide) (by decide)⟩

theorem ceilDivNat_bounds (n l : Nat) (hl : 1 ≤ l) :
    n ≤ ceilDivNat n l * l ∧ ceilDivNat n l * l < n + l := by
  have h1 : l * ((n + l - 1) / l) + (n + l - 1) % l = n + l - 1 :=
    Nat.div_add_mod _ _
  have h2 : (n + l - 1) % l < l := Nat.mod_lt _ (by omega)
  unfold ceilDivNat
  rw [Nat.mul_comm]
  omega

theorem chunks_flatten_take (m : Nat) (l : List α) (k : Nat) :
    ((List.range k).map (fun i => (l.drop (i * m)).take m)).flatten = l.take (k * m) := by
  induction k with
  | zero => simp
  | succ k ih =>
    rw [List.range_succ, List.map_append, List.flatten_append]
    simp only [List.map_cons, List.map_nil, List.flatten_cons, List.flatten_nil,
      List.append_nil]
    rw [ih, Nat.succ_mul, List.take_add]

theorem chunks_flatten_all (m : Nat) (l : List α) (k : Nat) (h : l.length ≤ k * m) :
    ((List.range k).map (fun i => (l.drop (i * m)).take m)).flatten = l := by
  rw [chunks_flatten_take]
  exact List.take_of_length_le h

theorem sortPosts_perm (db : DB) (s : String) (ps : List PostRow) :
    (sortPosts db s ps).Perm ps := by
  unfold sortPosts
  repeat' split
  all_goals exact sortedBy_perm _ _

theorem enrichPost_injective (db : DB) : Function.Injective (enrichPost db) := by
  intro a b hab
  exact congrArg EnrichedPost.post hab

theorem allPostPages_eq (db : DB) (limit : Nat) (sortBy : String) (k : Nat)
    (hk : db.posts.length ≤ k * limit) :
    allPostPages db limit sortBy k = (sortPosts db sortBy db.posts).map (enrichPost db) := by
  unfold allPostPages
  have hfun : (fun i => (getPosts db (i + 1) limit sortBy).posts) =
      (fun i => List.map (enrichPost db)
        (((sortPosts db sortBy db.posts).drop (i * limit)).take limit)) := by
    funext i
    simp [getPosts]
  rw [hfun]
  have hmm : (fun i => List.map (enrichPost db)
      (((sortPosts db sortBy db.posts).drop (i * limit)).take limit)) =
      (List.map (enrichPost db)) ∘ (fun i => ((sortPosts db sortBy db.posts).drop
        (i * limit)).take limit) := rfl
  rw [hmm, ← List.map_map, ← List.map_flatten]
  rw [chunks_flatten_all limit (sortPosts db sortBy db.posts) k
    (by rw [(sortPosts_perm db sortBy db.posts).length_eq]; exact hk)]

/-- C4: for page and limit at least 1, the post listing returns at most
limit posts, namely the window of the full ordering starting at
zero-based offset (page - 1) * limit; it reports totalPosts as the
unfiltered scope size and totalPages as the ceiling of totalPosts over
limit; and concatenating the pages 1 through totalPages yields exactly
the full ordering: totalPosts entities, without duplicates (for a
duplicate-free scope) and without gaps. -/
theorem c4_pagination (db : DB) (limit page : Nat) (sortBy : String)
    (hpage : 1 ≤ page) (hlimit : 1 ≤ limit) :
    (getPosts db page limit sortBy).posts.length ≤ limit ∧
    (getPosts db page limit sortBy).posts =
      (((sortPosts db sortBy db.posts).drop ((page - 1) * limit)).take limit).map
        (enrichPost db) ∧
    (getPosts db page limit sortBy).totalPosts = db.posts.length ∧
    (getPosts db page limit sortBy).totalPosts ≤
      (getPosts db page limit sortBy).totalPages * limit ∧
    (getPosts db page limit sortBy).totalPages * limit <
      (getPosts db page limit sortBy).totalPosts + limit ∧
    allPostPages db limit sortBy (getPosts db page limit sortBy).totalPages =
      (sortPosts db sortBy db.posts).map (enrichPost db) ∧
    (allPostPages db limit sortBy (getPosts db page limit sortBy).totalPages).length =
      (getPosts db page limit sortBy).totalPosts ∧
    (db.posts.Nodup →
      (allPostPages db limit sortBy (getPosts db page limit sortBy).totalPages).Nodup) := by
  have hbounds := ceilDivNat_bounds db.posts.length limit hlimit
  have hall : allPostPages db limit sortBy (getPosts db page limit sortBy).totalPages =
      (sortPosts db sortBy db.posts).map (enrichPost db) :=
    allPostPages_eq db limit sortBy _ hbounds.1
  refine ⟨?_, rfl, rfl, hbounds.1, hbounds.2, hall, ?_, ?_⟩
  · show ((((sortPosts db sortBy db.posts).drop ((page - 1) * limit)).take limit).map
      (enrichPost db)).length ≤ limit
    rw [List.length_map, List.length_take]
    exact Nat.min_le_left _ _
  · rw [hall, List.length_map, (sortPosts_perm db sortBy db.posts).length_eq]
    rfl
  · intro hnodup
    rw [hall]
    exact List.Nodup.map (enrichPost_injective db)
      (((sortPosts_perm db sortBy db.posts).nodup_iff).mpr hnodup)

/-- C4 witness: pagination over a concrete three-post scope with limit 2
(two pages). -/
theorem c4_witness :
    1 ≤ 1 ∧ 1 ≤ 2 ∧
    ((getPosts dbSmall 1 2 "recent").posts.length ≤ 2 ∧
      (getPosts dbSmall 1 2 "recent").posts =
        (((sortPosts dbSmall "recent" dbSmall.posts).drop ((1 - 1) * 2)).take 2).map
          (enrichPost dbSmall) ∧
      (getPosts dbSmall 1 2 "recent").totalPosts = dbSmall.posts.length ∧
      (getPosts dbSmall 1 2 "recent").totalPosts ≤
        (getPosts dbSmall 1 2 "recent").totalPages * 2 ∧
      (getPosts dbSmall 1 2 "recent").totalPages * 2 <
        (getPosts dbSmall 1 2 "recent").totalPosts + 2 ∧
      allPostPages dbSmall 2 "recent" (getPosts dbSmall 1 2 "recent").totalPages =
        (sortPosts dbSmall "recent" dbSmall.posts).map (enrichPost dbSmall) ∧
      (allPostPages dbSmall 2 "recent" (getPosts dbSmall 1 2 "recent").totalPages).length =
        (getPosts dbSmall 1 2 "recent").totalPosts ∧
      (dbSmall.posts.Nodup →
        (allPostPages dbSmall 2 "recent" (getPosts dbSmall 1 2 "recent").totalPages).Nodup)) :=
  ⟨by decide, by decide, c4_pagination dbSmall 2 1 "recent" (by decide) (by decide)⟩

theorem countP_eq_zero_of_any_false (l : List α) (p : α → Bool) (h : l.any p = false) :
    l.countP p = 0 :=
  List.countP_eq_zero.mpr (List.any_eq_false.mp h)

theorem filter_not_eq_self_of_any_false (l : List α) (p : α → Bool) (h : l.any p = false) :
    l.filter (fun r => !p r) = l :=
  List.filter_eq_self.mpr (fun a ha => by
    have := List.any_eq_false.mp h a ha
    simp only [Bool.not_eq_true] at this
    simp [this])

/-- C5: from the Liked state (an active like row for the triple exists,
with the user and the entity present), a second add for the same
(username, entityType, entityID) triple fails with the AlreadyLiked
conflict and leaves the stored state, in particular the entity's like
distribution, exactly unchanged; no upsert or silent success occurs. -/
theorem c5_double_like_conflict (db : DB) (username ets : String) (id : Nat)
    (u : UserRow) (et : EntityType)
    (hu : findUser db.users username = some u)
    (het : parseEntityType ets = some et)
    (hex : entityExists db et id = true)
    (hliked : db.likes.any (likeMatchesTriple username et id) = true) :
    (addLike db username ets id).result = Except.error FeedError.AlreadyLiked ∧
    (addLike db username ets id).db = db ∧
    likesDistribution (addLike db username ets id).db.likes et id =
      likesDistribution db.likes et id := by
  have hred : addLike db username ets id =
      ⟨Except.error FeedError.AlreadyLiked, db,
        [DbOp.queryUsers username, entityExistsOp et id,
          DbOp.callInsertLike username et id u.polLean]⟩ := by
    simp [addLike, hu, het, hex, hliked]
  rw [hred]
  exact ⟨rfl, rfl, rfl⟩

/-- C5 witness: bob already likes comment 1; his second like attempt
conflicts and changes nothing. -/
theorem c5_witness :
    findUser dbSmall.users "bob" = some wUserBob ∧
    parseEntityType "COMMENT" = some EntityType.COMMENT ∧
    entityExists dbSmall EntityType.COMMENT 1 = true ∧
    dbSmall.likes.any (likeMatchesTriple "bob" EntityType.COMMENT 1) = true ∧
    ((addLike dbSmall "bob" "COMMENT" 1).result = Except.error FeedError.AlreadyLiked ∧
      (addLike dbSmall "bob" "COMMENT" 1).db = dbSmall ∧
      likesDistribution (addLike dbSmall "bob" "COMMENT" 1).db.likes EntityType.COMMENT 1 =
        likesDistribution dbSmall.likes EntityType.COMMENT 1) :=
  ⟨by decide, rfl, by decide, by decide,
    c5_double_like_conflict dbSmall "bob" "COMMENT" 1 wUserBob EntityType.COMMENT
      (by decide) rfl (by decide) (by decide)⟩

/-- C6: a successful add immediately followed by a remove of the same
triple returns the whole Likes store, and hence the entity's like
distribution, to its exact pre-add state; the remove succeeds and
reports the pre-add distribution. -/
theorem c6_add_remove_roundtrip (db : DB) (username ets : String) (id : Nat)
    (u : UserRow) (et : EntityType)
    (hu : findUser db.users username = some u)
    (het : parseEntityType ets = some et)
    (hex : entityExists db et id = true)
    (hnew : db.likes.any (likeMatchesTriple username et id) = false) :
    (addLike db username ets id).result =
      Except.ok (likesDistribution (db.likes ++ [⟨username, et, id, u.polLean⟩]) et id) ∧
    (removeLike (addLike db username ets id).db username ets id).db = db ∧
    (removeLike (addLike db username ets id).db username ets id).result =
      Except.ok (likesDistribution db.likes et id) := by
  have hredAdd : addLike db username ets id =
      ⟨Except.ok (likesDistribution (db.likes ++ [⟨username, et, id, u.polLean⟩]) et id),
        ⟨db.users, db.posts, db.comments, db.likes ++ [⟨username, et, id, u.polLean⟩]⟩,
        [DbOp.queryUsers username, entityExistsOp et id,
          DbOp.callInsertLike username et id u.polLean,
          DbOp.selectLikesGroup et id]⟩ := by
    simp [addLike, hu, het, hex, hnew]
  have hmatch : likeMatchesTriple username et id
      (⟨username, et, id, u.polLean⟩ : LikeRow) = true := by
    simp [likeMatchesTriple]
  have hcount : (db.likes ++ [(⟨username, et, id, u.polLean⟩ : LikeRow)]).countP
      (likeMatchesTriple username et id) = 1 := by
    rw [List.countP_append, countP_eq_zero_of_any_false db.likes _ hnew]
    simp [List.countP_cons, hmatch]
  have hfilter : (db.likes ++ [(⟨username, et, id, u.polLean⟩ : LikeRow)]).filter
      (fun r => !likeMatchesTriple username et id r) = db.likes := by
    rw [List.filter_append, filter_not_eq_self_of_any_false db.likes _ hnew]
    simp [List.filter_cons, hmatch]
  have hredRem : removeLike (⟨db.users, db.posts, db.comments,
      db.likes ++ [(⟨username, et, id, u.polLean⟩ : LikeRow)]⟩ : DB) username ets id =
      ⟨Except.ok (likesDistribution db.likes et id),
        ⟨db.users, db.posts, db.comments, db.likes⟩,
        [DbOp.deleteLikes username et id, DbOp.selectLikesGroup et id]⟩ := by
    simp only [removeLike, het]
    rw [hcount, hfilter]
    simp
  rw [hredAdd]
  refine ⟨rfl, ?_, ?_⟩
  · show (removeLike (⟨db.users, db.posts, db.comments,
      db.likes ++ [(⟨username, et, id, u.polLean⟩ : LikeRow)]⟩ : DB) username ets id).db = db
    rw [hredRem]
  · show (removeLike (⟨db.users, db.posts, db.comments,
      db.likes ++ [(⟨username, et, id, u.polLean⟩ : LikeRow)]⟩ : DB) username ets id).result = _
    rw [hredRem]

/-- C6 witness: alice likes post 1 on a state with no likes, then
removes the like; the state returns exactly to the original. -/
theorem c6_witness :
    findUser dbOnePost.users "alice" = some wUserAlice ∧
    parseEntityType "POST" = some EntityType.POST ∧
    entityExists dbOnePost EntityType.POST 1 = true ∧
    dbOnePost.likes.any (likeMatchesTriple "alice" EntityType.POST 1) = false ∧
    ((addLike dbOnePost "alice" "POST" 1).result =
      Except.ok (likesDistribution (dbOnePost.likes ++
        [⟨"alice", EntityType.POST, 1, wUserAlice.polLean⟩]) EntityType.POST 1) ∧
    (removeLike (addLike dbOnePost "alice" "POST" 1).db "alice" "POST" 1).db = dbOnePost ∧
    (removeLike (addLike dbOnePost "alice" "POST" 1).db "alice" "POST" 1).result =
      Except.ok (likesDistribution dbOnePost.likes EntityType.POST 1)) :=
  ⟨by decide, rfl, by decide, by decide,
    c6_add_remove_roundtrip dbOnePost "alice" "POST" 1 wUserAlice EntityType.POST
      (by decide) rfl (by decide) (by decide)⟩

/-- C7 counterexample: an add-like request with the invalid entity type
USER issues the Users lookup storage query before failing (its trace is
not empty), and when the requesting user is missing the failure is
UserNotFound, not InvalidEntityType; so the invalid-entity-type
validation does not happen before every storage call. -/
theorem c7_counterexample :
    (addLike dbOnePost "alice" "USER" 1).result =
      Except.error FeedError.InvalidEntityType ∧
    (addLike dbOnePost "alice" "USER" 1).trace = [DbOp.queryUsers "alice"] ∧
    ((addLike dbOnePost "alice" "USER" 1).trace = ([] : List DbOp)) = False ∧
    (addLike dbOnePost "ghost" "USER" 1).result = Except.error FeedError.UserNotFound ∧
    (FeedError.UserNotFound = FeedError.InvalidEntityType) = False := by
  refine ⟨rfl, rfl, ?_, rfl, ?_⟩ <;> decide

/-- C7 (amended): an add-like request whose entityType is neither POST
nor COMMENT fails with InvalidEntityType provided the requesting user
exists; the user-leaning lookup, a storage read, is issued before this
validation, but no entity or like-table call is issued and the stored
state is unchanged (when the user is missing, UserNotFound takes
precedence over the entity-type validation). -/
theorem c7_amended_invalid_entity_type (db : DB) (username ets : String) (id : Nat)
    (u : UserRow)
    (hu : findUser db.users username = some u)
    (het : parseEntityType ets = none) :
    (addLike db username ets id).result = Except.error FeedError.InvalidEntityType ∧
    (addLike db username ets id).db = db ∧
    (addLike db username ets id).trace = [DbOp.queryUsers username] := by
  have hred : addLike db username ets id =
      ⟨Except.error FeedError.InvalidEntityType, db, [DbOp.queryUsers username]⟩ := by
    simp [addLike, hu, het]
  rw [hred]
  exact ⟨rfl, rfl, rfl⟩

/-- C7 witness: the amended behaviour at the concrete entity type USER
for the existing user alice. -/
theorem c7_witness :
    findUser dbOnePost.users "alice" = some wUserAlice ∧
    parseEntityType "USER" = none ∧
    ((addLike dbOnePost "alice" "USER" 5).result =
        Except.error FeedError.InvalidEntityType ∧
      (addLike dbOnePost "alice" "USER" 5).db = dbOnePost ∧
      (addLike dbOnePost "alice" "USER" 5).trace = [DbOp.queryUsers "alice"]) :=
  ⟨by decide, rfl,
    c7_amended_invalid_entity_type dbOnePost "alice" "USER" 5 wUserAlice (by decide) rfl⟩

/-- C8: a comment listing for a postID that references no existing post
fails with PostNotFound, and its storage trace is exactly the single
post-existence query: the check runs before any comment query, ordering
or aggregation work. -/
theorem c8_post_check_before_pagination (db : DB) (postID page limit : Nat)
    (sortBy : String) (parentID : Option Nat)
    (h : db.posts.any (fun p => p.postID == postID) = false) :
    (getComments db postID page limit sortBy parentID).result =
      Except.error FeedError.PostNotFound ∧
    (getComments db postID page limit sortBy parentID).trace =
      [DbOp.queryPostExists postID] := by
  constructor <;> simp [getComments, h]

/-- C8 witness: listing the comments of the missing post 2. -/
theorem c8_witness :
    (dbOnePost.posts.any (fun p => p.postID == 2)) = false ∧
    ((getComments dbOnePost 2 1 20 "recent" none).result =
        Except.error FeedError.PostNotFound ∧
      (getComments dbOnePost 2 1 20 "recent" none).trace = [DbOp.queryPostExists 2]) :=
  ⟨by decide, c8_post_check_before_pagination dbOnePost 2 1 20 "recent" none (by decide)⟩

/-- C9 counterexample: an add-comment request supplying both postID and
parentCommentID is accepted and the stored comment row carries both
parent references, so an accepted comment does not always reference
exactly one of the two. -/
theorem c9_counterexample :
    (addComment dbOnePost "alice" "hey" (some 1) (some 2) 99).result = Except.ok 1 ∧
    (addComment dbOnePost "alice" "hey" (some 1) (some 2) 99).db.comments =
      [⟨1, some 1, some 2, "alice", "hey", 99⟩] :=
  ⟨rfl, rfl⟩

/-- C9 (amended): with a non-empty body, the add-comment operation fails
with MissingFields and leaves the state unchanged when neither a truthy
postID nor a truthy parentCommentID is given; and when both are given it
accepts the request and inserts a comment row carrying both parent
references at once (mutual exclusivity is not enforced). -/
theorem c9_amended_parentage (db : DB) (username body : String)
    (postID parentCommentID : Option Nat) (now : Nat) (hbody : body ≠ "") :
    (truthyOpt postID = false → truthyOpt parentCommentID = false →
      (addComment db username body postID parentCommentID now).result =
        Except.error FeedError.MissingFields ∧
      (addComment db username body postID parentCommentID now).db = db) ∧
    (truthyOpt postID = true → truthyOpt parentCommentID = true →
      (addComment db username body postID parentCommentID now).result =
        Except.ok (nextCommentID db) ∧
      (addComment db username body postID parentCommentID now).db.comments =
        db.comments ++
          [⟨nextCommentID db, postID, parentCommentID, username, body, now⟩]) := by
  constructor
  · intro hp hc
    have hred : addComment db username body postID parentCommentID now =
        ⟨Except.error FeedError.MissingFields, db, []⟩ := by
      simp [addComment, hbody, hp, hc]
    rw [hred]
    exact ⟨rfl, rfl⟩
  · intro hp hc
    have hred : addComment db username body postID parentCommentID now =
        ⟨Except.ok (nextCommentID db),
          ⟨db.users, db.posts,
            db.comments ++
              [⟨nextCommentID db, postID, parentCommentID, username, body, now⟩],
            db.likes⟩,
          [DbOp.callInsertComment username]⟩ := by
      simp [addComment, hbody, hp, hc]
    rw [hred]
    exact ⟨rfl, rfl⟩

/-- C9 witness: the amended behaviour at a request carrying both parent
references on a concrete state. -/
theorem c9_witness :
    "hey" ≠ "" ∧
    truthyOpt (some 1) = true ∧ truthyOpt (some 2) = true ∧
    ((addComment dbSmall "alice" "hey" (some 1) (some 2) 40).result =
        Except.ok (nextCommentID dbSmall) ∧
      (addComment dbSmall "alice" "hey" (some 1) (some 2) 40).db.comments =
        dbSmall.comments ++
          [⟨nextCommentID dbSmall, some 1, some 2, "alice", "hey", 40⟩]) :=
  ⟨by decide, rfl, rfl,
    (c9_amended_parentage dbSmall "alice" "hey" (some 1) (some 2) 40 (by decide)).2
      rfl rfl⟩

/-- C10: a remove-like request with an invalid entityType fails with the
invalid-entity-type error before any storage call (empty trace) and
leaves the store unchanged; a valid request deletes exactly the like
rows matching its (username, entityType, entityID) triple and touches
nothing else; and a valid request matching no like row leaves the store
unchanged and fails with LikeNotFound. -/
theorem c10_remove_like_safety (db : DB) (username ets : String) (id : Nat) :
    (parseEntityType ets = none →
      (removeLike db username ets id).result = Except.error FeedError.InvalidEntityType ∧
      (removeLike db username ets id).db = db ∧
      (removeLike db username ets id).trace = []) ∧
    (∀ et, parseEntityType ets = some et →
      (removeLike db username ets id).db.users = db.users ∧
      (removeLike db username ets id).db.posts = db.posts ∧
      (removeLike db username ets id).db.comments = db.comments ∧
      (removeLike db username ets id).db.likes =
        db.likes.filter (fun r => !likeMatchesTriple username et id r) ∧
      (db.likes.any (likeMatchesTriple username et id) = false →
        (removeLike db username ets id).result = Except.error FeedError.LikeNotFound ∧
        (removeLike db username ets id).db = db)) := by
  constructor
  · intro het
    have hred : removeLike db username ets id =
        ⟨Except.error FeedError.InvalidEntityType, db, []⟩ := by
      simp [removeLike, het]
    rw [hred]
    exact ⟨rfl, rfl, rfl⟩
  · intro et het
    cases hcnt : db.likes.countP (likeMatchesTriple username et id) with
    | zero =>
      have hany : db.likes.any (likeMatchesTriple username et id) = false := by
        rw [List.any_eq_false]
        exact List.countP_eq_zero.mp hcnt
      have hfilter : db.likes.filter (fun r => !likeMatchesTriple username et id r) =
          db.likes := filter_not_eq_self_of_any_false db.likes _ hany
      have hred : removeLike db username ets id =
          ⟨Except.error FeedError.LikeNotFound,
            ⟨db.users, db.posts, db.comments, db.likes⟩,
            [DbOp.deleteLikes username et id]⟩ := by
        simp [removeLike, het, hcnt, hfilter]
      rw [hred]
      exact ⟨rfl, rfl, rfl, hfilter.symm, fun _ => ⟨rfl, rfl⟩⟩
    | succ n =>
      have hred : removeLike db username ets id =
          ⟨Except.ok (likesDistribution (db.likes.filter
              (fun r => !likeMatchesTriple username et id r)) et id),
            ⟨db.users, db.posts, db.comments,
              db.likes.filter (fun r => !likeMatchesTriple username et id r)⟩,
            [DbOp.deleteLikes username et id, DbOp.selectLikesGroup et id]⟩ := by
        simp [removeLike, het, hcnt]
      rw [hred]
      refine ⟨rfl, rfl, rfl, rfl, ?_⟩
      intro hnone
      exfalso
      have h0 := countP_eq_zero_of_any_false db.likes _ hnone
      rw [hcnt] at h0
      exact Nat.succ_ne_zero n h0

/-- C10 witness: removing a like that does not exist from a concrete
state fails with LikeNotFound and changes nothing. -/
theorem c10_witness :
    parseEntityType "COMMENT" = some EntityType.COMMENT ∧
    dbOnePost.likes.any (likeMatchesTriple "alice" EntityType.COMMENT 7) = false ∧
    ((removeLike dbOnePost "alice" "COMMENT" 7).result =
        Except.error FeedError.LikeNotFound ∧
      (removeLike dbOnePost "alice" "COMMENT" 7).db = dbOnePost) :=
  ⟨rfl, by decide,
    ((c10_remove_like_safety dbOnePost "alice" "COMMENT" 7).2 EntityType.COMMENT
      rfl).2.2.2.2 (by decide)⟩
